import Mathlib

/-!
# IPv6 country lookup binding (`src/country6.cc`)

A shallow embedding of `geoip::Country6`: the constructor function `New`, the two
lookup entry points `lookupSync` and `lookup` with the worker pair
`EIO_Country` / `EIO_AfterCountry`, `update` and `close`.

The GeoIP C library is not part of the repository.  What the binding calls in it is
taken as data: the files `GeoIP_open` can find, the address parser, the per-database
index and the four country tables are fields of `Lib`; the objects `GeoIP_open`
returned live in `World.heap` together with the number of times each was freed.
-/

namespace geoip

/-! ## Library constants and types -/

/-- GeoIP.h, flag of `GeoIP_open`: read through from the file. -/
def GEOIP_STANDARD : Int := 0

/-- GeoIP.h, flag of `GeoIP_open`: load the file into memory. -/
def GEOIP_MEMORY_CACHE : Int := 1

/-- GeoIP.h, the edition tag of a country IPv6 database. -/
def GEOIP_COUNTRY_EDITION_V6 : Int := 12

/-- The library's `geoipv6_t` (a `struct in6_addr`): the bytes of the address. -/
structure geoipv6_t where
  s6_addr : List Nat
  deriving DecidableEq

/-- The library's `__GEOIP_V6_IS_NULL`: every byte of the address is zero. -/
def __GEOIP_V6_IS_NULL (v6 : geoipv6_t) : Bool :=
  v6.s6_addr.all (fun b => b == 0)

/-- The library's `GeoIP` object as far as the binding observes it: the edition tag
`GeoIP_database_edition` reads, and the answer of `GeoIP_id_by_ipnum_v6` for every
address. -/
structure GeoIP where
  databaseType : Int
  seek : geoipv6_t → Int

/-- The parts of the GeoIP library the binding uses, taken as parameters. -/
structure Lib where
  /-- What `GeoIP_open(path, flags)` finds: nothing (it returns `NULL`) or a database. -/
  files : String → Int → Option GeoIP
  /-- The address parser; the all-zero address stands for text that does not parse. -/
  _GeoIP_lookupaddress_v6 : String → geoipv6_t
  /-- The table `GeoIP_country_name`, by the content found at an index. -/
  GeoIP_country_name : Int → String
  /-- The table `GeoIP_country_code`. -/
  GeoIP_country_code : Int → String
  /-- The table `GeoIP_country_code3`. -/
  GeoIP_country_code3 : Int → String
  /-- The table `GeoIP_country_continent`. -/
  GeoIP_country_continent : Int → String
  /-- The transcoding of a stored name. -/
  _GeoIP_iso_8859_1__utf8 : String → String

/-! ## Script values and outcomes -/

/-- The script values the binding hands back. `This c` is the script object wrapping
the `Country6` at address `c`; `Object props` a fresh object with the properties set
on it, in the order of the `Set` calls. -/
inductive Value where
  | Undefined
  | Null
  | JsTrue
  | Error (msg : String)
  | Object (props : List (String × String))
  | This (c : Nat)
  deriving DecidableEq

/-- How a call of a bound function ends: `return scope.Close(v)`, a thrown exception
carrying a string, or a read through a pointer that refers to no live object. -/
inductive Outcome where
  | Close (v : Value)
  | ThrowException (msg : String)
  | Fault
  deriving DecidableEq

/-! ## State -/

/-- One object returned by `GeoIP_open`, with the number of times it was freed. -/
structure Cell where
  gi : GeoIP
  frees : Nat

/-- Modelled from the spec: class `Country6` is declared in `country6.h`, which is not
among the sources; its two data members are the ones `country6.cc` assigns, the
database reference `db` (`none` is `NULL`) and the edition tag `db_edition` (`none`
while it was never assigned: the constructor initialises `db` only). -/
structure Country6 where
  db : Option Nat
  db_edition : Option Int
  deriving DecidableEq

/-- Modelled from the spec: `country6_baton_t` is declared in `country6.h`, which is
not among the sources; the spec's LookupRequest is a handle reference, an address key
and a completion callback, and `country6.cc` uses the members `c` (the address of the
`Country6`), `ipnum_v6`, `country_id` and `cb` (the identity of the callback). -/
structure country6_baton_t where
  c : Nat
  ipnum_v6 : geoipv6_t
  country_id : Int
  cb : Nat
  deriving DecidableEq

/-- The four country tables. -/
inductive Table where
  | country_name
  | country_code
  | country_code3
  | country_continent
  deriving DecidableEq

/-- What a lookup does to the library: a call of `GeoIP_id_by_ipnum_v6` on a database
reference, or the read of a country table at an index. -/
inductive Event where
  | id_by_ipnum_v6 (db : Option Nat) (ipnum : geoipv6_t)
  | read (t : Table) (i : Int)
  deriving DecidableEq

/-- The process state: the `GeoIP` objects ever opened (a reference is an index into
`heap`), the `Country6` objects by address with the next free address, the work
requests queued with `uv_queue_work` and not run yet, the callback invocations made
so far (callback, `argv`), and the library accesses made so far. -/
structure World where
  heap : List Cell
  objs : Nat → Country6
  nobjs : Nat
  queue : List country6_baton_t
  calls : List (Nat × List Value)
  trace : List Event

/-- The state of a fresh process. -/
def World.init : World :=
  { heap := [], objs := fun _ => ⟨none, none⟩, nobjs := 0, queue := [], calls := [], trace := [] }

/-- Assignment to the `Country6` at address `a`. -/
def World.setObj (w : World) (a : Nat) (v : Country6) : World :=
  { w with objs := fun x => if x = a then v else w.objs x }

/-- One more free of the object at index `p`. -/
def release : List Cell → Nat → List Cell
  | [], _ => []
  | c :: cs, 0 => { c with frees := c.frees + 1 } :: cs
  | c :: cs, p + 1 => c :: release cs p

/-- The object a reference points to, when it is one that was opened and never freed. -/
def World.deref (w : World) (db : Option Nat) : Option GeoIP :=
  match db with
  | none => none
  | some p =>
    match w.heap[p]? with
    | none => none
    | some cell => if cell.frees = 0 then some cell.gi else none

/-- The number of times the object at index `p` was freed. -/
def World.frees (w : World) (p : Nat) : Nat :=
  match w.heap[p]? with
  | none => 0
  | some cell => cell.frees

/-- The object at index `p` is open: it was opened and never freed. -/
def World.live (w : World) (p : Nat) : Bool :=
  match w.heap[p]? with
  | none => false
  | some cell => cell.frees == 0

/-- The number of open objects among those opened after the first `n`. -/
def World.liveFrom (w : World) (n : Nat) : Nat :=
  (w.heap.drop n).countP (fun cell => cell.frees == 0)

/-! ## Library calls -/

/-- The library's `GeoIP_open`: `NULL` when nothing opens, else a reference to a new
object. -/
def GeoIP_open (L : Lib) (w : World) (filename : String) (flags : Int) : World × Option Nat :=
  match L.files filename flags with
  | none => (w, none)
  | some gi => ({ w with heap := w.heap ++ [⟨gi, 0⟩] }, some w.heap.length)

/-- The library's `GeoIP_delete`; in the words of `country6.cc` it "free()'s the gi
reference & closes its fd". On `NULL` it does nothing. -/
def GeoIP_delete (w : World) (gi : Option Nat) : World :=
  match gi with
  | none => w
  | some p => { w with heap := release w.heap p }

/-- The C++ expression `delete p` on a `GeoIP *`: frees the object; nothing on `NULL`. -/
def cpp_delete (w : World) (p : Option Nat) : World :=
  match p with
  | none => w
  | some p => { w with heap := release w.heap p }

/-- The library's `GeoIP_database_edition`: the tag of the object referred to. -/
def GeoIP_database_edition (w : World) (gi : Option Nat) : Option Int :=
  (w.deref gi).map (fun g => g.databaseType)

/-- The library's `GeoIP_id_by_ipnum_v6`: the index's answer, through the reference. -/
def GeoIP_id_by_ipnum_v6 (w : World) (gi : Option Nat) (ipnum : geoipv6_t) :
    World × Option Int :=
  ({ w with trace := w.trace ++ [Event.id_by_ipnum_v6 gi ipnum] },
   (w.deref gi).map (fun g => g.seek ipnum))

/-! ## `country6.cc` -/

/-- `geoip::Country6::New` (lines 36-62). -/
def New (L : Lib) (w : World) (file_cstr : String) (cache_on : Bool) : World × Outcome :=
  let c := w.nobjs
  let w := { w with nobjs := w.nobjs + 1 }.setObj c ⟨none, none⟩
  match GeoIP_open L w file_cstr (if cache_on then GEOIP_MEMORY_CACHE else GEOIP_STANDARD) with
  | (w, db) =>
    let w := w.setObj c { w.objs c with db := db }
    if db ≠ none then
      let w := w.setObj c { w.objs c with db_edition := GeoIP_database_edition w (w.objs c).db }
      if (w.objs c).db_edition = some GEOIP_COUNTRY_EDITION_V6 then
        (w, Outcome.Close (Value.This c))
      else
        let w := GeoIP_delete w (w.objs c).db
        let w := cpp_delete w (w.objs c).db
        (w, Outcome.ThrowException "Error: Not valid country database")
    else
      (w, Outcome.ThrowException "Error: Cannot open database")

/-- `geoip::Country6::lookupSync` (lines 64-100). -/
def lookupSync (L : Lib) (w : World) (this : Nat) (host_cstr : String) : World × Outcome :=
  let c := this
  if (w.objs c).db_edition ≠ some GEOIP_COUNTRY_EDITION_V6 then
    (w, Outcome.ThrowException "Error: Database is not country ipv6 edition")
  else
    let ipnum_v6 := L._GeoIP_lookupaddress_v6 host_cstr
    if __GEOIP_V6_IS_NULL ipnum_v6 then
      (w, Outcome.Close Value.Null)
    else
      match GeoIP_id_by_ipnum_v6 w (w.objs c).db ipnum_v6 with
      | (w, none) => (w, Outcome.Fault)
      | (w, some country_id) =>
        if country_id = 0 then
          (w, Outcome.Close Value.Null)
        else
          let name := L._GeoIP_iso_8859_1__utf8 (L.GeoIP_country_name country_id)
          let data :=
            [("country_name", name),
             ("country_code", L.GeoIP_country_code country_id),
             ("country_code3", L.GeoIP_country_code3 country_id),
             ("continent_code", L.GeoIP_country_continent country_id)]
          let w := { w with trace := w.trace ++
            [Event.read Table.country_name country_id,
             Event.read Table.country_code country_id,
             Event.read Table.country_code3 country_id,
             Event.read Table.country_continent country_id] }
          (w, Outcome.Close (Value.Object data))

/-- `geoip::Country6::lookup` (lines 102-130). The argument check `REQ_FUN_ARG` of the
binding layer is taken as passed: `cb` is a function. -/
def lookup (L : Lib) (w : World) (this : Nat) (host_cstr : String) (cb : Nat) :
    World × Outcome :=
  let c := this
  if (w.objs c).db_edition ≠ some GEOIP_COUNTRY_EDITION_V6 then
    (w, Outcome.ThrowException "Error: Database is not country ipv6 edition")
  else
    let baton : country6_baton_t :=
      { c := c, ipnum_v6 := L._GeoIP_lookupaddress_v6 host_cstr, country_id := 0, cb := cb }
    ({ w with queue := w.queue ++ [baton] }, Outcome.Close Value.Undefined)

/-- `geoip::Country6::EIO_Country` (lines 132-145); `none` when the read through
`baton->c->db` has no live object to read. -/
def EIO_Country (w : World) (baton : country6_baton_t) : World × Option country6_baton_t :=
  if __GEOIP_V6_IS_NULL baton.ipnum_v6 then
    (w, some { baton with country_id := 0 })
  else
    match GeoIP_id_by_ipnum_v6 w (w.objs baton.c).db baton.ipnum_v6 with
    | (w, none) => (w, none)
    | (w, some id) => (w, some { baton with country_id := id })

/-- `geoip::Country6::EIO_AfterCountry` (lines 147-185). -/
def EIO_AfterCountry (L : Lib) (w : World) (baton : country6_baton_t) : World :=
  if baton.country_id ≤ 0 then
    let argv := [Value.Error "Data not found", Value.Null]
    { w with calls := w.calls ++ [(baton.cb, argv)] }
  else
    let name := L._GeoIP_iso_8859_1__utf8 (L.GeoIP_country_name baton.country_id)
    let data :=
      [("country_name", name),
       ("country_code", L.GeoIP_country_code baton.country_id),
       ("country_code3", L.GeoIP_country_code3 baton.country_id),
       ("continent_code", L.GeoIP_country_continent baton.country_id)]
    let argv := [Value.Null, Value.Object data]
    { w with
      trace := w.trace ++
        [Event.read Table.country_name baton.country_id,
         Event.read Table.country_code baton.country_id,
         Event.read Table.country_code3 baton.country_id,
         Event.read Table.country_continent baton.country_id],
      calls := w.calls ++ [(baton.cb, argv)] }

/-- The event loop runs the `i`-th queued request: `EIO_Country` on a worker, then
`EIO_AfterCountry`. `none` when the worker faults; no request at `i` changes nothing. -/
def uv_run (L : Lib) (w : World) (i : Nat) : Option World :=
  match w.queue[i]? with
  | none => some w
  | some baton =>
    match EIO_Country { w with queue := w.queue.eraseIdx i } baton with
    | (_, none) => none
    | (w, some baton) => some (EIO_AfterCountry L w baton)

/-- `geoip::Country6::update` (lines 187-215). -/
def update (L : Lib) (w : World) (this : Nat) (file_cstr : String) (cache_on : Bool) :
    World × Outcome :=
  let c := this
  match GeoIP_open L w file_cstr (if cache_on then GEOIP_MEMORY_CACHE else GEOIP_STANDARD) with
  | (w, db) =>
    let w := w.setObj c { w.objs c with db := db }
    if db ≠ none then
      let w := w.setObj c { w.objs c with db_edition := GeoIP_database_edition w (w.objs c).db }
      if (w.objs c).db_edition = some GEOIP_COUNTRY_EDITION_V6 then
        (w, Outcome.Close Value.JsTrue)
      else
        let w := GeoIP_delete w (w.objs c).db
        let w := cpp_delete w (w.objs c).db
        (w, Outcome.ThrowException "Error: Not valid country database")
    else
      (w, Outcome.ThrowException "Error: Cannot open database")

/-- `geoip::Country6::close` (lines 217-222). -/
def close (w : World) (this : Nat) : World :=
  let c := this
  let w := GeoIP_delete w (w.objs c).db
  let w := cpp_delete w (w.objs c).db
  w

/-- An operation on a handle that changes what it holds. -/
inductive Op where
  | update (file_cstr : String) (cache_on : Bool)
  | close

/-- The state after one operation on the handle `this`. -/
def step (L : Lib) (w : World) (this : Nat) : Op → World
  | Op.update file_cstr cache_on => (update L w this file_cstr cache_on).1
  | Op.close => close w this

/-- The state after a sequence of operations on the handle `this`. -/
def runOps (L : Lib) (w : World) (this : Nat) : List Op → World
  | [] => w
  | op :: ops => runOps L (step L w this op) this ops

/-- The number of `update` operations in a sequence. -/
def updates : List Op → Nat
  | [] => 0
  | Op.update _ _ :: ops => updates ops + 1
  | Op.close :: ops => updates ops

/-! ## Sample data -/

/-- The address of the text `::1`: one non-zero byte. -/
def addr1 : geoipv6_t := ⟨[0, 0, 0, 0, 0, 0, 0, 0, 0, 0, 0, 0, 0, 0, 0, 1]⟩

/-- A small library: two country IPv6 databases answering record 1 and record 2, a
plain country database (edition 1), a country IPv6 database whose index answers -1,
one whose index answers 0, and the first three rows of the country tables. Only the
text `::1` parses. -/
def demoLib : Lib where
  files := fun path _ =>
    if path = "GeoIPv6.dat" then some ⟨GEOIP_COUNTRY_EDITION_V6, fun _ => 1⟩
    else if path = "GeoIPv6-new.dat" then some ⟨GEOIP_COUNTRY_EDITION_V6, fun _ => 2⟩
    else if path = "GeoIP.dat" then some ⟨1, fun _ => 1⟩
    else if path = "negative.dat" then some ⟨GEOIP_COUNTRY_EDITION_V6, fun _ => -1⟩
    else if path = "zero.dat" then some ⟨GEOIP_COUNTRY_EDITION_V6, fun _ => 0⟩
    else none
  _GeoIP_lookupaddress_v6 := fun host =>
    if host = "::1" then addr1 else ⟨List.replicate 16 0⟩
  GeoIP_country_name := fun i =>
    if i = 1 then "Asia/Pacific Region" else if i = 2 then "Europe" else "N/A"
  GeoIP_country_code := fun i => if i = 1 then "AP" else if i = 2 then "EU" else "--"
  GeoIP_country_code3 := fun i => if i = 1 then "AP" else if i = 2 then "EU" else "N/A"
  GeoIP_country_continent := fun i => if i = 1 then "AS" else if i = 2 then "EU" else "--"
  _GeoIP_iso_8859_1__utf8 := fun s => s

/-- A fresh process after `new Country6("GeoIPv6.dat", true)`: the handle is at
address 0 and holds the database at index 0. -/
def openedWorld : World := (New demoLib World.init "GeoIPv6.dat" true).1

/-- A fresh process after `new Country6("negative.dat", false)`. -/
def negativeWorld : World := (New demoLib World.init "negative.dat" false).1

/-- A fresh process after `new Country6("zero.dat", false)`. -/
def zeroWorld : World := (New demoLib World.init "zero.dat" false).1

/-! ## Auxiliary facts -/

theorem getElem?_release_self (xs : List Cell) (p : Nat) (cell : Cell)
    (h : xs[p]? = some cell) :
    (release xs p)[p]? = some { cell with frees := cell.frees + 1 } := by
  induction xs generalizing p with
  | nil => simp at h
  | cons x xs ih =>
    cases p with
    | zero => simp at h; simp [release, h]
    | succ p => simp at h; simpa [release] using ih p h

theorem getElem?_release_other (xs : List Cell) (p q : Nat) (h : q ≠ p) :
    (release xs p)[q]? = xs[q]? := by
  induction xs generalizing p q with
  | nil => simp [release]
  | cons x xs ih =>
    cases p with
    | zero =>
      cases q with
      | zero => exact absurd rfl h
      | succ q => simp [release]
    | succ p =>
      cases q with
      | zero => simp [release]
      | succ q => simpa [release] using ih p q (fun e => h (by rw [e]))

theorem length_release (xs : List Cell) (p : Nat) : (release xs p).length = xs.length := by
  induction xs generalizing p with
  | nil => simp [release]
  | cons x xs ih =>
    cases p with
    | zero => simp [release]
    | succ p => simp [release, ih]

theorem eraseIdx_snoc_length (q : List country6_baton_t) (b : country6_baton_t) :
    (q ++ [b]).eraseIdx q.length = q := by
  induction q with
  | nil => simp
  | cons x q ih => simpa using ih

/-! ## Opening a database -/

/-- C1: `New` returns a handle exactly when the file opens and its edition tag is
the country IPv6 one; the handle returned is the new `Country6`, whose `db_edition`
is that constant and whose `db` refers to the opened database; a file that does not
open gives "Error: Cannot open database" and one of another edition gives
"Error: Not valid country database", for every path and cache flag. -/
theorem New_returns_handle_iff (L : Lib) (w : World) (file_cstr : String) (cache_on : Bool) :
    ((∃ v, (New L w file_cstr cache_on).2 = Outcome.Close v) ↔
      ∃ gi, L.files file_cstr (if cache_on then GEOIP_MEMORY_CACHE else GEOIP_STANDARD) = some gi ∧
        gi.databaseType = GEOIP_COUNTRY_EDITION_V6) ∧
    (∀ v, (New L w file_cstr cache_on).2 = Outcome.Close v →
      v = Value.This w.nobjs ∧
      ((New L w file_cstr cache_on).1.objs w.nobjs).db_edition = some GEOIP_COUNTRY_EDITION_V6 ∧
      ((New L w file_cstr cache_on).1.deref ((New L w file_cstr cache_on).1.objs w.nobjs).db).map
        (fun g => g.databaseType) = some GEOIP_COUNTRY_EDITION_V6) ∧
    (L.files file_cstr (if cache_on then GEOIP_MEMORY_CACHE else GEOIP_STANDARD) = none →
      (New L w file_cstr cache_on).2 = Outcome.ThrowException "Error: Cannot open database") ∧
    (∀ gi, L.files file_cstr (if cache_on then GEOIP_MEMORY_CACHE else GEOIP_STANDARD) = some gi →
      gi.databaseType ≠ GEOIP_COUNTRY_EDITION_V6 →
      (New L w file_cstr cache_on).2 =
        Outcome.ThrowException "Error: Not valid country database") := by
  generalize hf : (if cache_on then GEOIP_MEMORY_CACHE else GEOIP_STANDARD) = flags
  cases hopen : L.files file_cstr flags with
  | none =>
    simp [New, GeoIP_open, hf, hopen, World.setObj]
  | some gi =>
    by_cases hed : gi.databaseType = GEOIP_COUNTRY_EDITION_V6
    · simp [New, GeoIP_open, hf, hopen, World.setObj, GeoIP_database_edition, World.deref, hed]
    · simp [New, GeoIP_open, hf, hopen, World.setObj, GeoIP_database_edition, World.deref, hed]

/-- C2: at a file of the plain country edition `New` throws "Error: Not valid country
database", and the database it opened has then been freed twice (once by
`GeoIP_delete`, once by `delete`) while the `db` member still refers to it. -/
theorem New_invalid_edition_frees_twice :
    (New demoLib World.init "GeoIP.dat" false).2 =
      Outcome.ThrowException "Error: Not valid country database" ∧
    (New demoLib World.init "GeoIP.dat" false).1.frees 0 = 2 ∧
    ((New demoLib World.init "GeoIP.dat" false).1.objs 0).db = some 0 := by
  decide

/-! ## Lookups -/

/-- C4: when the host text parses to the null address, neither entry point touches
the library (the state after `lookupSync` is the state before; the state after the
queued lookup ran differs by one callback invocation only) and neither produces a
record; on a handle of the country IPv6 edition `lookupSync` returns null and the
queued lookup calls back with (Error "Data not found", null). On a handle of another
edition both entry points throw before the text is parsed. -/
theorem malformed_address_not_found (L : Lib) (w : World) (this : Nat) (host : String)
    (cb : Nat) (hnull : __GEOIP_V6_IS_NULL (L._GeoIP_lookupaddress_v6 host) = true) :
    (lookupSync L w this host).1 = w ∧
    (∀ props, (lookupSync L w this host).2 ≠ Outcome.Close (Value.Object props)) ∧
    ((w.objs this).db_edition = some GEOIP_COUNTRY_EDITION_V6 →
      (lookupSync L w this host).2 = Outcome.Close Value.Null ∧
      (lookup L w this host cb).2 = Outcome.Close Value.Undefined ∧
      uv_run L (lookup L w this host cb).1 w.queue.length =
        some { w with calls := w.calls ++ [(cb, [Value.Error "Data not found", Value.Null])] }) ∧
    ((w.objs this).db_edition ≠ some GEOIP_COUNTRY_EDITION_V6 →
      lookupSync L w this host =
        (w, Outcome.ThrowException "Error: Database is not country ipv6 edition") ∧
      lookup L w this host cb =
        (w, Outcome.ThrowException "Error: Database is not country ipv6 edition")) := by
  by_cases hed : (w.objs this).db_edition = some GEOIP_COUNTRY_EDITION_V6
  · simp [lookupSync, lookup, uv_run, EIO_Country, EIO_AfterCountry, hed, hnull,
      eraseIdx_snoc_length]
  · simp [lookupSync, lookup, hed]

/-- C5: when the index answers record id 0 for a parsed address, `lookupSync` returns
null, which is what it returns for a text that does not parse, and the queued lookup
calls back with (Error "Data not found", null), which is its completion for a text
that does not parse; the only library access either path makes is the one call of
`GeoIP_id_by_ipnum_v6`, so no country table is read, at index 0 or elsewhere. -/
theorem record_id_zero_is_no_record (L : Lib) (w : World) (this : Nat) (host host0 : String)
    (cb : Nat) (gi : GeoIP)
    (hed : (w.objs this).db_edition = some GEOIP_COUNTRY_EDITION_V6)
    (hparse : __GEOIP_V6_IS_NULL (L._GeoIP_lookupaddress_v6 host) = false)
    (hdb : w.deref (w.objs this).db = some gi)
    (hzero : gi.seek (L._GeoIP_lookupaddress_v6 host) = 0)
    (hnull0 : __GEOIP_V6_IS_NULL (L._GeoIP_lookupaddress_v6 host0) = true) :
    (lookupSync L w this host).2 = Outcome.Close Value.Null ∧
    (lookupSync L w this host).2 = (lookupSync L w this host0).2 ∧
    (lookupSync L w this host).1.trace =
      w.trace ++ [Event.id_by_ipnum_v6 (w.objs this).db (L._GeoIP_lookupaddress_v6 host)] ∧
    (∀ t, Event.read t 0 ∈ (lookupSync L w this host).1.trace → Event.read t 0 ∈ w.trace) ∧
    ∃ w', uv_run L (lookup L w this host cb).1 w.queue.length = some w' ∧
      w'.calls = w.calls ++ [(cb, [Value.Error "Data not found", Value.Null])] ∧
      (uv_run L (lookup L w this host0 cb).1 w.queue.length).map World.calls = some w'.calls ∧
      w'.trace =
        w.trace ++ [Event.id_by_ipnum_v6 (w.objs this).db (L._GeoIP_lookupaddress_v6 host)] ∧
      (∀ t, Event.read t 0 ∈ w'.trace → Event.read t 0 ∈ w.trace) := by
  have hdb' : ∀ q c tr, World.deref
      { heap := w.heap, objs := w.objs, nobjs := w.nobjs, queue := q, calls := c, trace := tr }
      (w.objs this).db = some gi := by
    intro q c tr
    simpa [World.deref] using hdb
  refine ⟨?_, ?_, ?_, ?_, ?_⟩
  · simp [lookupSync, hed, hparse, GeoIP_id_by_ipnum_v6, hdb, hzero]
  · simp [lookupSync, hed, hparse, GeoIP_id_by_ipnum_v6, hdb, hzero, hnull0]
  · simp [lookupSync, hed, hparse, GeoIP_id_by_ipnum_v6, hdb, hzero]
  · simp [lookupSync, hed, hparse, GeoIP_id_by_ipnum_v6, hdb, hzero]
  · simp [lookup, uv_run, EIO_Country, EIO_AfterCountry, hed, hparse, hnull0,
      GeoIP_id_by_ipnum_v6, hdb', hzero, eraseIdx_snoc_length]

/-- C6: `EIO_AfterCountry` invokes the baton's callback exactly once, with two
arguments that are either (Error, null) or (null, record); exactly one of the two is
null, and the shape is (null, record) exactly when `country_id` is positive. An
accepted `lookup` queues one request and invokes nothing, and running a queued
request removes it from the queue and adds that one invocation. -/
theorem EIO_AfterCountry_calls_back_once (L : Lib) (w : World) (baton : country6_baton_t) :
    (∃ argv, (EIO_AfterCountry L w baton).calls = w.calls ++ [(baton.cb, argv)] ∧
      argv.length = 2 ∧
      ((∃ msg, argv = [Value.Error msg, Value.Null]) ∨
        (∃ props, argv = [Value.Null, Value.Object props])) ∧
      ((argv[0]? = some Value.Null ∧ argv[1]? ≠ some Value.Null) ∨
        (argv[0]? ≠ some Value.Null ∧ argv[1]? = some Value.Null)) ∧
      ((∃ props, argv = [Value.Null, Value.Object props]) ↔ 0 < baton.country_id)) ∧
    (∀ this host cb, (lookup L w this host cb).1.calls = w.calls ∧
      ((lookup L w this host cb).2 = Outcome.Close Value.Undefined →
        (lookup L w this host cb).1.queue =
          w.queue ++ [⟨this, L._GeoIP_lookupaddress_v6 host, 0, cb⟩])) ∧
    (∀ i b w', w.queue[i]? = some b → uv_run L w i = some w' →
      w'.queue = w.queue.eraseIdx i ∧ ∃ argv, w'.calls = w.calls ++ [(b.cb, argv)]) := by
  refine ⟨?_, ?_, ?_⟩
  · by_cases hid : baton.country_id ≤ 0
    · refine ⟨[Value.Error "Data not found", Value.Null], ?_, rfl, Or.inl ⟨_, rfl⟩, ?_, ?_⟩
      · simp [EIO_AfterCountry, hid]
      · simp
      · simp; omega
    · refine ⟨[Value.Null, Value.Object
          [("country_name", L._GeoIP_iso_8859_1__utf8 (L.GeoIP_country_name baton.country_id)),
           ("country_code", L.GeoIP_country_code baton.country_id),
           ("country_code3", L.GeoIP_country_code3 baton.country_id),
           ("continent_code", L.GeoIP_country_continent baton.country_id)]],
          ?_, rfl, Or.inr ⟨_, rfl⟩, ?_, ?_⟩
      · simp [EIO_AfterCountry, hid]
      · simp
      · simp; omega
  · intro this host cb
    by_cases hed : (w.objs this).db_edition = some GEOIP_COUNTRY_EDITION_V6
    · simp [lookup, hed]
    · simp [lookup, hed]
  · intro i b w' hb hrun
    simp only [uv_run, hb] at hrun
    by_cases hnull : __GEOIP_V6_IS_NULL b.ipnum_v6 = true
    · simp [EIO_Country, hnull, EIO_AfterCountry] at hrun
      subst hrun
      simp
    · cases hd : World.deref { w with queue := w.queue.eraseIdx i } (w.objs b.c).db with
      | none => simp [EIO_Country, hnull, GeoIP_id_by_ipnum_v6, hd] at hrun
      | some gi =>
        simp [EIO_Country, hnull, GeoIP_id_by_ipnum_v6, hd] at hrun
        subst hrun
        by_cases hid : gi.seek b.ipnum_v6 ≤ 0
        · simp [EIO_AfterCountry, hid]
        · simp [EIO_AfterCountry, hid]

/-- Witness of C4 on the handle of `openedWorld` and the text "not-an-address". -/
theorem malformed_address_not_found_witness :
    __GEOIP_V6_IS_NULL (demoLib._GeoIP_lookupaddress_v6 "not-an-address") = true ∧
    (lookupSync demoLib openedWorld 0 "not-an-address").1 = openedWorld ∧
    (lookupSync demoLib openedWorld 0 "not-an-address").2 = Outcome.Close Value.Null ∧
    uv_run demoLib (lookup demoLib openedWorld 0 "not-an-address" 7).1 openedWorld.queue.length =
      some { openedWorld with
        calls := openedWorld.calls ++ [(7, [Value.Error "Data not found", Value.Null])] } :=
  ⟨by decide,
   (malformed_address_not_found demoLib openedWorld 0 "not-an-address" 7 (by decide)).1,
   ((malformed_address_not_found demoLib openedWorld 0 "not-an-address" 7 (by decide)).2.2.1
      (by decide)).1,
   ((malformed_address_not_found demoLib openedWorld 0 "not-an-address" 7 (by decide)).2.2.1
      (by decide)).2.2⟩

/-- Witness of C5 on the handle of `zeroWorld`, whose index answers 0 for `::1`. -/
theorem record_id_zero_is_no_record_witness :
    (zeroWorld.objs 0).db_edition = some GEOIP_COUNTRY_EDITION_V6 ∧
    __GEOIP_V6_IS_NULL (demoLib._GeoIP_lookupaddress_v6 "::1") = false ∧
    (zeroWorld.deref (zeroWorld.objs 0).db).map (fun g => g.seek addr1) = some 0 ∧
    (lookupSync demoLib zeroWorld 0 "::1").2 = Outcome.Close Value.Null ∧
    (lookupSync demoLib zeroWorld 0 "::1").1.trace =
      zeroWorld.trace ++ [Event.id_by_ipnum_v6 (zeroWorld.objs 0).db addr1] :=
  ⟨by decide, by decide, by decide,
   (record_id_zero_is_no_record demoLib zeroWorld 0 "::1" "not-an-address" 7
      ⟨GEOIP_COUNTRY_EDITION_V6, fun _ => 0⟩ (by decide) (by decide) rfl rfl (by decide)).1,
   (record_id_zero_is_no_record demoLib zeroWorld 0 "::1" "not-an-address" 7
      ⟨GEOIP_COUNTRY_EDITION_V6, fun _ => 0⟩ (by decide) (by decide) rfl rfl (by decide)).2.2.1⟩

/-- C3: on a country IPv6 handle whose index answers -1 for `::1`, `lookupSync`
tests `country_id == 0`, reads the four tables at index -1 and returns a record,
while the queued lookup tests `country_id <= 0` and calls back with
(Error "Data not found", null). -/
theorem lookupSync_lookup_differ_on_negative_id :
    (negativeWorld.objs 0).db_edition = some GEOIP_COUNTRY_EDITION_V6 ∧
    (lookupSync demoLib negativeWorld 0 "::1").2 =
      Outcome.Close (Value.Object
        [("country_name", "N/A"), ("country_code", "--"), ("country_code3", "N/A"),
         ("continent_code", "--")]) ∧
    (lookupSync demoLib negativeWorld 0 "::1").1.trace =
      [Event.id_by_ipnum_v6 (some 0) addr1,
       Event.read Table.country_name (-1), Event.read Table.country_code (-1),
       Event.read Table.country_code3 (-1), Event.read Table.country_continent (-1)] ∧
    (uv_run demoLib (lookup demoLib negativeWorld 0 "::1" 7).1 0).map World.calls =
      some [(7, [Value.Error "Data not found", Value.Null])] := by
  decide

/-- Where the two entry points do agree: on a handle of the country IPv6 edition
with a live database whose index answers a non-negative id for the parsed address,
the queued lookup calls back with (null, r) when `lookupSync` returns the record r,
and with (Error "Data not found", null) when `lookupSync` returns null. -/
theorem lookupSync_lookup_agree_of_nonneg (L : Lib) (w : World) (this : Nat) (host : String)
    (cb : Nat) (gi : GeoIP)
    (hed : (w.objs this).db_edition = some GEOIP_COUNTRY_EDITION_V6)
    (hdb : w.deref (w.objs this).db = some gi)
    (hnn : 0 ≤ gi.seek (L._GeoIP_lookupaddress_v6 host)) :
    (∀ props, (lookupSync L w this host).2 = Outcome.Close (Value.Object props) →
      (uv_run L (lookup L w this host cb).1 w.queue.length).map World.calls =
        some (w.calls ++ [(cb, [Value.Null, Value.Object props])])) ∧
    ((lookupSync L w this host).2 = Outcome.Close Value.Null →
      (uv_run L (lookup L w this host cb).1 w.queue.length).map World.calls =
        some (w.calls ++ [(cb, [Value.Error "Data not found", Value.Null])])) := by
  have hdb' : ∀ q c tr, World.deref
      { heap := w.heap, objs := w.objs, nobjs := w.nobjs, queue := q, calls := c, trace := tr }
      (w.objs this).db = some gi := by
    intro q c tr
    simpa [World.deref] using hdb
  by_cases hnull : __GEOIP_V6_IS_NULL (L._GeoIP_lookupaddress_v6 host) = true
  · simp [lookupSync, lookup, uv_run, EIO_Country, EIO_AfterCountry, hed, hnull,
      eraseIdx_snoc_length]
  · by_cases hz : gi.seek (L._GeoIP_lookupaddress_v6 host) = 0
    · simp [lookupSync, lookup, uv_run, EIO_Country, EIO_AfterCountry, hed, hnull,
        eraseIdx_snoc_length, GeoIP_id_by_ipnum_v6, hdb, hdb', hz]
    · have hpos : ¬ gi.seek (L._GeoIP_lookupaddress_v6 host) ≤ 0 := by omega
      simp [lookupSync, lookup, uv_run, EIO_Country, EIO_AfterCountry, hed, hnull,
        eraseIdx_snoc_length, GeoIP_id_by_ipnum_v6, hdb, hdb', hz, hpos]

/-! ## Releasing and replacing the database -/

theorem countP_drop_release_le (xs : List Cell) (p n : Nat) :
    ((release xs p).drop n).countP (fun cell => cell.frees == 0) ≤
      (xs.drop n).countP (fun cell => cell.frees == 0) := by
  induction xs generalizing p n with
  | nil => simp [release]
  | cons x xs ih =>
    cases p with
    | zero =>
      cases n with
      | zero =>
        simp only [release, List.drop_zero, List.countP_cons]
        have : (x.frees + 1 == 0) = false := by simp
        simp [this]
      | succ n => simp [release]
    | succ p =>
      cases n with
      | zero =>
        have := ih p 0
        simp only [List.drop_zero] at this
        simp only [release, List.drop_zero, List.countP_cons]
        omega
      | succ n => simpa [release] using ih p n

/-- C8, counterexample: on a handle holding an open database the second `close`
frees the database again, so the state after two calls is not the state after one. -/
theorem close_twice_frees_again :
    (close openedWorld 0).frees 0 = 2 ∧
    (close (close openedWorld 0) 0).frees 0 = 4 ∧
    close (close openedWorld 0) 0 ≠ close openedWorld 0 :=
  ⟨by decide, by decide, fun h => absurd (congrArg (fun w => World.frees w 0) h) (by decide)⟩

/-- C8, amended: `close` changes nothing but the free counts: `db`, `db_edition`, the
queue and the calls made are what they were, so two calls leave the handle's members
as one call does. On a handle whose `db` is `NULL` it changes nothing at all, and
there a second call is a no-op. On a handle whose `db` refers to an opened database
every call frees that database again: its free count grows with the first call and
grows again with the second. -/
theorem close_frees_on_every_call (w : World) (this : Nat) :
    (close w this).objs = w.objs ∧
    (close (close w this) this).objs = (close w this).objs ∧
    (close w this).queue = w.queue ∧ (close w this).calls = w.calls ∧
    ((w.objs this).db = none →
      close w this = w ∧ close (close w this) this = close w this) ∧
    (∀ p cell, (w.objs this).db = some p → w.heap[p]? = some cell →
      w.frees p < (close w this).frees p ∧
      (close w this).frees p < (close (close w this) this).frees p) := by
  refine ⟨?_, ?_, ?_, ?_, ?_, ?_⟩
  · cases h : (w.objs this).db <;> simp [close, GeoIP_delete, cpp_delete, h]
  · cases h : (w.objs this).db <;> simp [close, GeoIP_delete, cpp_delete, h]
  · cases h : (w.objs this).db <;> simp [close, GeoIP_delete, cpp_delete, h]
  · cases h : (w.objs this).db <;> simp [close, GeoIP_delete, cpp_delete, h]
  · intro h
    simp [close, GeoIP_delete, cpp_delete, h]
  · intro p cell h hc
    have h1 := getElem?_release_self w.heap p cell hc
    have h2 := getElem?_release_self _ p _ h1
    have h3 := getElem?_release_self _ p _ h2
    have h4 := getElem?_release_self _ p _ h3
    simp [close, GeoIP_delete, cpp_delete, h, World.frees, hc, h2, h4]
    omega

theorem liveFrom_update_le (L : Lib) (w : World) (this : Nat) (file_cstr : String)
    (cache_on : Bool) (n : Nat) (hn : n ≤ w.heap.length) :
    (update L w this file_cstr cache_on).1.liveFrom n ≤ w.liveFrom n + 1 ∧
    w.heap.length ≤ (update L w this file_cstr cache_on).1.heap.length := by
  generalize hf : (if cache_on then GEOIP_MEMORY_CACHE else GEOIP_STANDARD) = flags
  cases hopen : L.files file_cstr flags with
  | none =>
    simp [update, GeoIP_open, hf, hopen, World.setObj, World.liveFrom]
  | some gi =>
    by_cases hed : gi.databaseType = GEOIP_COUNTRY_EDITION_V6
    · simp [update, GeoIP_open, hf, hopen, World.setObj, GeoIP_database_edition, World.deref,
        hed, World.liveFrom, List.drop_append_of_le_length hn]
    · have h1 := countP_drop_release_le (release (w.heap ++ [⟨gi, 0⟩]) w.heap.length)
        w.heap.length n
      have h2 := countP_drop_release_le (w.heap ++ [⟨gi, 0⟩]) w.heap.length n
      simp [List.drop_append_of_le_length hn] at h2
      simp [update, GeoIP_open, hf, hopen, World.setObj, GeoIP_database_edition, World.deref,
        hed, World.liveFrom, GeoIP_delete, cpp_delete, length_release]
      omega

theorem liveFrom_close_le (w : World) (this : Nat) (n : Nat) :
    (close w this).liveFrom n ≤ w.liveFrom n ∧ (close w this).heap.length = w.heap.length := by
  cases h : (w.objs this).db with
  | none => simp [close, GeoIP_delete, cpp_delete, h]
  | some p =>
    have h1 := countP_drop_release_le (release w.heap p) p n
    have h2 := countP_drop_release_le w.heap p n
    simp [close, GeoIP_delete, cpp_delete, h, World.liveFrom, length_release]
    omega

theorem liveFrom_runOps_le (L : Lib) (this : Nat) (n : Nat) (ops : List Op) :
    ∀ w : World, n ≤ w.heap.length → (runOps L w this ops).liveFrom n ≤ w.liveFrom n + updates ops := by
  induction ops with
  | nil => intro w _; simp [runOps, updates]
  | cons op ops ih =>
    intro w hn
    cases op with
    | update file_cstr cache_on =>
      have h := liveFrom_update_le L w this file_cstr cache_on n hn
      have h2 := ih (update L w this file_cstr cache_on).1 (le_trans hn h.2)
      simp only [runOps, step, updates]
      omega
    | close =>
      have h := liveFrom_close_le w this n
      have h2 := ih (close w this) (by rw [h.2]; exact hn)
      simp only [runOps, step, updates]
      omega

theorem getElem?_append_pair (xs : List Cell) (a b : Cell) :
    (xs ++ [a] ++ [b])[xs.length]? = some a ∧ (xs ++ [a] ++ [b])[xs.length + 1]? = some b := by
  induction xs with
  | nil => simp
  | cons x xs ih => simpa using ih

theorem New_ok_state (L : Lib) (w0 : World) (file_cstr : String) (cache_on : Bool) (this : Nat)
    (hnew : (New L w0 file_cstr cache_on).2 = Outcome.Close (Value.This this)) :
    ∃ gi, (New L w0 file_cstr cache_on).1.heap = w0.heap ++ [⟨gi, 0⟩] := by
  generalize hf : (if cache_on then GEOIP_MEMORY_CACHE else GEOIP_STANDARD) = flags
  cases hopen : L.files file_cstr flags with
  | none =>
    simp [New, GeoIP_open, hf, hopen, World.setObj] at hnew
  | some gi =>
    by_cases hed : gi.databaseType = GEOIP_COUNTRY_EDITION_V6
    · exact ⟨gi, by simp [New, GeoIP_open, hf, hopen, World.setObj, GeoIP_database_edition,
        World.deref, hed]⟩
    · simp [New, GeoIP_open, hf, hopen, World.setObj, GeoIP_database_edition, World.deref,
        hed] at hnew

theorem update_ok_state (L : Lib) (w : World) (this : Nat) (file_cstr : String)
    (cache_on : Bool)
    (hok : (update L w this file_cstr cache_on).2 = Outcome.Close Value.JsTrue) :
    ∃ gi, (update L w this file_cstr cache_on).1.heap = w.heap ++ [⟨gi, 0⟩] ∧
      ((update L w this file_cstr cache_on).1.objs this).db = some w.heap.length := by
  generalize hf : (if cache_on then GEOIP_MEMORY_CACHE else GEOIP_STANDARD) = flags
  cases hopen : L.files file_cstr flags with
  | none =>
    simp [update, GeoIP_open, hf, hopen, World.setObj] at hok
  | some gi =>
    by_cases hed : gi.databaseType = GEOIP_COUNTRY_EDITION_V6
    · exact ⟨gi, by simp [update, GeoIP_open, hf, hopen, World.setObj, GeoIP_database_edition,
        World.deref, hed]⟩
    · simp [update, GeoIP_open, hf, hopen, World.setObj, GeoIP_database_edition, World.deref,
        hed] at hok

/-- C9, counterexample: after a successful `New` and a successful `update` two
databases opened for the handle are open; the one held before was not freed. -/
theorem update_leaves_two_open :
    (update demoLib openedWorld 0 "GeoIPv6-new.dat" false).2 = Outcome.Close Value.JsTrue ∧
    (update demoLib openedWorld 0 "GeoIPv6-new.dat" false).1.live 0 = true ∧
    (update demoLib openedWorld 0 "GeoIPv6-new.dat" false).1.live 1 = true ∧
    (update demoLib openedWorld 0 "GeoIPv6-new.dat" false).1.liveFrom 0 = 2 := by
  decide

/-- C9, amended: the handle refers to one database at a time, but `update` does not
free the one held before. After a successful `New` one database opened for the
handle is open; after any sequence of `update` and `close` calls on the handle at
most one plus the number of `update` calls are open; and after a successful `update`
that directly follows the `New`, the database held before is still open, the new one
is open and is the one `db` refers to: two are open. -/
theorem open_databases_after_ops (L : Lib) (w0 : World) (file_cstr : String) (cache_on : Bool)
    (this : Nat) (hnew : (New L w0 file_cstr cache_on).2 = Outcome.Close (Value.This this)) :
    (New L w0 file_cstr cache_on).1.liveFrom w0.heap.length = 1 ∧
    (∀ ops, (runOps L (New L w0 file_cstr cache_on).1 this ops).liveFrom w0.heap.length ≤
      1 + updates ops) ∧
    (∀ path2 cache2,
      (update L (New L w0 file_cstr cache_on).1 this path2 cache2).2 =
        Outcome.Close Value.JsTrue →
      (update L (New L w0 file_cstr cache_on).1 this path2 cache2).1.live w0.heap.length = true ∧
      (update L (New L w0 file_cstr cache_on).1 this path2 cache2).1.live
        (w0.heap.length + 1) = true ∧
      ((update L (New L w0 file_cstr cache_on).1 this path2 cache2).1.objs this).db =
        some (w0.heap.length + 1) ∧
      (update L (New L w0 file_cstr cache_on).1 this path2 cache2).1.liveFrom
        w0.heap.length = 2) := by
  obtain ⟨gi, hheap⟩ := New_ok_state L w0 file_cstr cache_on this hnew
  have hlen : w0.heap.length ≤ (New L w0 file_cstr cache_on).1.heap.length := by
    simp [hheap]
  have hone : (New L w0 file_cstr cache_on).1.liveFrom w0.heap.length = 1 := by
    simp [World.liveFrom, hheap]
  refine ⟨hone, ?_, ?_⟩
  · intro ops
    have h := liveFrom_runOps_le L this w0.heap.length ops _ hlen
    omega
  · intro path2 cache2 hok
    obtain ⟨gi2, hheap2, hdb2⟩ := update_ok_state L _ this path2 cache2 hok
    rw [hheap] at hheap2
    refine ⟨?_, ?_, ?_, ?_⟩
    · rw [World.live, hheap2, (getElem?_append_pair w0.heap _ _).1]
      rfl
    · rw [World.live, hheap2, (getElem?_append_pair w0.heap _ _).2]
      rfl
    · simp [hdb2, hheap]
    · simp [World.liveFrom, hheap2]

/-- Witness of C9 on the handle opened on "GeoIPv6.dat" in a fresh process, with the
operations `update "GeoIPv6-new.dat"`, `close`. -/
theorem open_databases_after_ops_witness :
    (New demoLib World.init "GeoIPv6.dat" true).2 = Outcome.Close (Value.This 0) ∧
    (New demoLib World.init "GeoIPv6.dat" true).1.liveFrom World.init.heap.length = 1 ∧
    (runOps demoLib (New demoLib World.init "GeoIPv6.dat" true).1 0
      [Op.update "GeoIPv6-new.dat" false, Op.close]).liveFrom World.init.heap.length ≤
      1 + updates [Op.update "GeoIPv6-new.dat" false, Op.close] :=
  ⟨by decide,
   (open_databases_after_ops demoLib World.init "GeoIPv6.dat" true 0 (by decide)).1,
   (open_databases_after_ops demoLib World.init "GeoIPv6.dat" true 0 (by decide)).2.1 _⟩

/-- C10, counterexample: an `update` that fails on a file of the plain country
edition changes both members of the handle: `db` refers to the database just opened
and freed, `db_edition` is that file's edition, and a lookup that worked before the
call throws after it. -/
theorem failed_update_changes_handle :
    (update demoLib openedWorld 0 "GeoIP.dat" false).2 =
      Outcome.ThrowException "Error: Not valid country database" ∧
    (openedWorld.objs 0) = ⟨some 0, some GEOIP_COUNTRY_EDITION_V6⟩ ∧
    ((update demoLib openedWorld 0 "GeoIP.dat" false).1.objs 0) = ⟨some 1, some 1⟩ ∧
    (update demoLib openedWorld 0 "GeoIP.dat" false).1.live 1 = false ∧
    (lookupSync demoLib openedWorld 0 "::1").2 =
      Outcome.Close (Value.Object
        [("country_name", "Asia/Pacific Region"), ("country_code", "AP"),
         ("country_code3", "AP"), ("continent_code", "AS")]) ∧
    (lookupSync demoLib (update demoLib openedWorld 0 "GeoIP.dat" false).1 0 "::1").2 =
      Outcome.ThrowException "Error: Database is not country ipv6 edition" := by
  decide

/-- C10, amended: an `update` that fails because the file opened is not of the
country IPv6 edition throws "Error: Not valid country database" and leaves the handle
changed: `db_edition` is the edition of that file, `db` refers to the database just
opened, which is not open any more, the databases opened earlier are untouched
(the one held before is not freed), the other `Country6` objects are untouched, and
from then on `lookupSync` and `lookup` on the handle throw "Error: Database is not
country ipv6 edition". An `update` that fails because the file does not open throws
"Error: Cannot open database" and leaves `db_edition` as it was. -/
theorem failed_update_effect (L : Lib) (w : World) (this : Nat) (file_cstr : String)
    (cache_on : Bool) :
    (∀ gi, L.files file_cstr (if cache_on then GEOIP_MEMORY_CACHE else GEOIP_STANDARD) = some gi →
      gi.databaseType ≠ GEOIP_COUNTRY_EDITION_V6 →
      (update L w this file_cstr cache_on).2 =
        Outcome.ThrowException "Error: Not valid country database" ∧
      ((update L w this file_cstr cache_on).1.objs this).db_edition = some gi.databaseType ∧
      ((update L w this file_cstr cache_on).1.objs this).db = some w.heap.length ∧
      (update L w this file_cstr cache_on).1.live w.heap.length = false ∧
      (∀ p, p < w.heap.length → (update L w this file_cstr cache_on).1.heap[p]? = w.heap[p]?) ∧
      (∀ a, a ≠ this → (update L w this file_cstr cache_on).1.objs a = w.objs a) ∧
      (∀ host, (lookupSync L (update L w this file_cstr cache_on).1 this host).2 =
        Outcome.ThrowException "Error: Database is not country ipv6 edition") ∧
      (∀ host cb, (lookup L (update L w this file_cstr cache_on).1 this host cb).2 =
        Outcome.ThrowException "Error: Database is not country ipv6 edition")) ∧
    (L.files file_cstr (if cache_on then GEOIP_MEMORY_CACHE else GEOIP_STANDARD) = none →
      (update L w this file_cstr cache_on).2 =
        Outcome.ThrowException "Error: Cannot open database" ∧
      ((update L w this file_cstr cache_on).1.objs this).db_edition = (w.objs this).db_edition ∧
      (update L w this file_cstr cache_on).1.heap = w.heap) := by
  generalize hf : (if cache_on then GEOIP_MEMORY_CACHE else GEOIP_STANDARD) = flags
  refine ⟨?_, ?_⟩
  · intro gi hopen hed
    have hself : (w.heap ++ [(⟨gi, 0⟩ : Cell)])[w.heap.length]? = some ⟨gi, 0⟩ := by simp
    have h1 := getElem?_release_self _ _ _ hself
    have h2 := getElem?_release_self _ _ _ h1
    refine ⟨?_, ?_, ?_, ?_, ?_, ?_, ?_, ?_⟩
    · simp [update, GeoIP_open, hf, hopen, World.setObj, GeoIP_database_edition, World.deref, hed]
    · simp [update, GeoIP_open, hf, hopen, World.setObj, GeoIP_database_edition, World.deref, hed,
        GeoIP_delete, cpp_delete]
    · simp [update, GeoIP_open, hf, hopen, World.setObj, GeoIP_database_edition, World.deref, hed,
        GeoIP_delete, cpp_delete]
    · simp [update, GeoIP_open, hf, hopen, World.setObj, GeoIP_database_edition, World.deref, hed,
        GeoIP_delete, cpp_delete, World.live, h2]
    · intro p hp
      have hpne : p ≠ w.heap.length := by omega
      simp [update, GeoIP_open, hf, hopen, World.setObj, GeoIP_database_edition, World.deref, hed,
        GeoIP_delete, cpp_delete, getElem?_release_other _ _ _ hpne, List.getElem?_append_left hp]
    · intro a ha
      simp [update, GeoIP_open, hf, hopen, World.setObj, GeoIP_database_edition, World.deref, hed,
        GeoIP_delete, cpp_delete, ha]
    · intro host
      simp [lookupSync, update, GeoIP_open, hf, hopen, World.setObj, GeoIP_database_edition,
        World.deref, hed, GeoIP_delete, cpp_delete]
    · intro host cb
      simp [lookup, update, GeoIP_open, hf, hopen, World.setObj, GeoIP_database_edition,
        World.deref, hed, GeoIP_delete, cpp_delete]
  · intro hopen
    simp [update, GeoIP_open, hf, hopen, World.setObj]

theorem uv_run_last (L : Lib) (w : World) (q : List country6_baton_t) (b : country6_baton_t)
    (gi : GeoIP) (hq : w.queue = q ++ [b]) (hdb : w.deref (w.objs b.c).db = some gi) :
    ∃ w1, uv_run L w q.length = some w1 ∧
      w1.calls = (EIO_AfterCountry L w
        ⟨b.c, b.ipnum_v6,
          if __GEOIP_V6_IS_NULL b.ipnum_v6 then 0 else gi.seek b.ipnum_v6, b.cb⟩).calls ∧
      w1.queue = q ∧ w1.objs = w.objs ∧ w1.heap = w.heap := by
  have hget : w.queue[q.length]? = some b := by simp [hq]
  have hdb1 : ∀ q1 c tr, World.deref
      { heap := w.heap, objs := w.objs, nobjs := w.nobjs, queue := q1, calls := c, trace := tr }
      (w.objs b.c).db = some gi := by
    intro q1 c tr
    simpa [World.deref] using hdb
  by_cases hnull : __GEOIP_V6_IS_NULL b.ipnum_v6 = true
  · simp [uv_run, hget, EIO_Country, hnull, EIO_AfterCountry, hq, eraseIdx_snoc_length]
  · by_cases hid : gi.seek b.ipnum_v6 ≤ 0
    · simp [uv_run, hget, EIO_Country, hnull, EIO_AfterCountry, hq, eraseIdx_snoc_length,
        GeoIP_id_by_ipnum_v6, hdb1, hid]
    · simp [uv_run, hget, EIO_Country, hnull, EIO_AfterCountry, hq, eraseIdx_snoc_length,
        GeoIP_id_by_ipnum_v6, hdb1, hid]

theorem calls_EIO_AfterCountry_congr (L : Lib) (w w1 : World) (b : country6_baton_t)
    (h : w.calls = w1.calls) :
    (EIO_AfterCountry L w b).calls = (EIO_AfterCountry L w1 b).calls := by
  by_cases hid : b.country_id ≤ 0
  · simp [EIO_AfterCountry, hid, h]
  · simp [EIO_AfterCountry, hid, h]

/-- C7, counterexample: a lookup of `::1` is queued on a handle whose database
answers record 1, the handle is then updated to a database that answers record 2,
and the queued lookup runs: it calls back with the record of the new database,
where without the update it calls back with the record of the old one. -/
theorem pending_lookup_sees_new_database :
    (lookup demoLib openedWorld 0 "::1" 7).2 = Outcome.Close Value.Undefined ∧
    (update demoLib (lookup demoLib openedWorld 0 "::1" 7).1 0 "GeoIPv6-new.dat" false).2 =
      Outcome.Close Value.JsTrue ∧
    (uv_run demoLib
      (update demoLib (lookup demoLib openedWorld 0 "::1" 7).1 0 "GeoIPv6-new.dat" false).1
      0).map World.calls =
      some [(7, [Value.Null, Value.Object
        [("country_name", "Europe"), ("country_code", "EU"), ("country_code3", "EU"),
         ("continent_code", "EU")]])] ∧
    (uv_run demoLib (lookup demoLib openedWorld 0 "::1" 7).1 0).map World.calls =
      some [(7, [Value.Null, Value.Object
        [("country_name", "Asia/Pacific Region"), ("country_code", "AP"),
         ("country_code3", "AP"), ("continent_code", "AS")]])] := by
  decide

/-- C7, amended: a queued lookup keeps the address parsed at submission and a
reference to the handle, not to the database, and reads the handle's `db` when it
runs. For every sequence accepted `lookup` of a host; successful `update`; run of the
queued lookup, the callback receives the completion for the id that the new database
answers for that address (id 0 when the address is null), and so does every lookup
submitted after the `update`. -/
theorem pending_lookup_resolves_against_new_database (L : Lib) (w : World) (this : Nat)
    (host : String) (cb : Nat) (file_cstr : String) (cache_on : Bool) (gi2 : GeoIP)
    (hed : (w.objs this).db_edition = some GEOIP_COUNTRY_EDITION_V6)
    (hfile : L.files file_cstr (if cache_on then GEOIP_MEMORY_CACHE else GEOIP_STANDARD) =
      some gi2)
    (hed2 : gi2.databaseType = GEOIP_COUNTRY_EDITION_V6) :
    (lookup L w this host cb).2 = Outcome.Close Value.Undefined ∧
    (update L (lookup L w this host cb).1 this file_cstr cache_on).2 =
      Outcome.Close Value.JsTrue ∧
    ∃ w3, uv_run L (update L (lookup L w this host cb).1 this file_cstr cache_on).1
        w.queue.length = some w3 ∧
      w3.calls = (EIO_AfterCountry L w
        ⟨this, L._GeoIP_lookupaddress_v6 host,
          if __GEOIP_V6_IS_NULL (L._GeoIP_lookupaddress_v6 host) then 0
          else gi2.seek (L._GeoIP_lookupaddress_v6 host), cb⟩).calls ∧
      w3.queue = w.queue ∧
      ∀ host2 cb2, ∃ w4, (lookup L w3 this host2 cb2).2 = Outcome.Close Value.Undefined ∧
        uv_run L (lookup L w3 this host2 cb2).1 w3.queue.length = some w4 ∧
        w4.calls = (EIO_AfterCountry L w3
          ⟨this, L._GeoIP_lookupaddress_v6 host2,
            if __GEOIP_V6_IS_NULL (L._GeoIP_lookupaddress_v6 host2) then 0
            else gi2.seek (L._GeoIP_lookupaddress_v6 host2), cb2⟩).calls := by
  generalize hf : (if cache_on then GEOIP_MEMORY_CACHE else GEOIP_STANDARD) = flags at hfile
  refine ⟨by simp [lookup, hed], ?_, ?_⟩
  · simp [lookup, hed, update, GeoIP_open, hf, hfile, World.setObj, GeoIP_database_edition,
      World.deref, hed2]
  · have hq : (update L (lookup L w this host cb).1 this file_cstr cache_on).1.queue =
        w.queue ++ [⟨this, L._GeoIP_lookupaddress_v6 host, 0, cb⟩] := by
      simp [lookup, hed, update, GeoIP_open, hf, hfile, World.setObj, GeoIP_database_edition,
        World.deref, hed2]
    have hdb : (update L (lookup L w this host cb).1 this file_cstr cache_on).1.deref
        ((update L (lookup L w this host cb).1 this file_cstr cache_on).1.objs this).db =
        some gi2 := by
      simp [lookup, hed, update, GeoIP_open, hf, hfile, World.setObj, GeoIP_database_edition,
        World.deref, hed2]
    have hcalls : (update L (lookup L w this host cb).1 this file_cstr cache_on).1.calls =
        w.calls := by
      simp [lookup, hed, update, GeoIP_open, hf, hfile, World.setObj, GeoIP_database_edition,
        World.deref, hed2]
    have hed3 : ((update L (lookup L w this host cb).1 this file_cstr cache_on).1.objs
        this).db_edition = some GEOIP_COUNTRY_EDITION_V6 := by
      simp [lookup, hed, update, GeoIP_open, hf, hfile, World.setObj, GeoIP_database_edition,
        World.deref, hed2]
    obtain ⟨w3, hrun, hc3, hq3, ho3, hh3⟩ := uv_run_last L _ _ _ gi2 hq hdb
    refine ⟨w3, hrun, ?_, hq3, ?_⟩
    · rw [hc3]
      exact calls_EIO_AfterCountry_congr L _ _ _ hcalls
    · intro host2 cb2
      have hed4 : (w3.objs this).db_edition = some GEOIP_COUNTRY_EDITION_V6 := by
        rw [ho3]; exact hed3
      have hdb4 : w3.deref (w3.objs this).db = some gi2 := by
        rw [ho3]
        simpa [World.deref, hh3] using hdb
      have hq4 : (lookup L w3 this host2 cb2).1.queue =
          w3.queue ++ [⟨this, L._GeoIP_lookupaddress_v6 host2, 0, cb2⟩] := by
        simp [lookup, hed4]
      have hdb5 : (lookup L w3 this host2 cb2).1.deref
          ((lookup L w3 this host2 cb2).1.objs this).db = some gi2 := by
        simpa [lookup, hed4, World.deref] using hdb4
      obtain ⟨w4, hrun4, hc4, _, _, _⟩ := uv_run_last L _ _ _ gi2 hq4 hdb5
      refine ⟨w4, by simp [lookup, hed4], hrun4, ?_⟩
      rw [hc4]
      exact calls_EIO_AfterCountry_congr L _ _ _ (by simp [lookup, hed4])

/-- Witness of C7 on the handle of `openedWorld`: the lookup of `::1` is queued, the
handle is updated to "GeoIPv6-new.dat", and the queued lookup runs. -/
theorem pending_lookup_resolves_against_new_database_witness :
    (openedWorld.objs 0).db_edition = some GEOIP_COUNTRY_EDITION_V6 ∧
    (demoLib.files "GeoIPv6-new.dat" GEOIP_STANDARD).map (fun g => g.databaseType) =
      some GEOIP_COUNTRY_EDITION_V6 ∧
    (update demoLib (lookup demoLib openedWorld 0 "::1" 7).1 0 "GeoIPv6-new.dat" false).2 =
      Outcome.Close Value.JsTrue :=
  ⟨by decide, by decide,
   (pending_lookup_resolves_against_new_database demoLib openedWorld 0 "::1" 7
      "GeoIPv6-new.dat" false ⟨GEOIP_COUNTRY_EDITION_V6, fun _ => 2⟩
      (by decide) rfl rfl).2.1⟩

/-- Witness of C1 on the file "GeoIPv6.dat" in a fresh process: the file opens with
the country IPv6 edition, so a handle is returned. -/
theorem New_returns_handle_iff_witness :
    ∃ v, (New demoLib World.init "GeoIPv6.dat" true).2 = Outcome.Close v :=
  (New_returns_handle_iff demoLib World.init "GeoIPv6.dat" true).1.2
    ⟨⟨GEOIP_COUNTRY_EDITION_V6, fun _ => 1⟩, rfl, rfl⟩

/-- Witness of C8 on the handle of `openedWorld`, which holds the database at
index 0: each of two `close` calls frees it again. -/
theorem close_frees_on_every_call_witness :
    openedWorld.frees 0 < (close openedWorld 0).frees 0 ∧
    (close openedWorld 0).frees 0 < (close (close openedWorld 0) 0).frees 0 :=
  (close_frees_on_every_call openedWorld 0).2.2.2.2.2 0 ⟨⟨GEOIP_COUNTRY_EDITION_V6, fun _ => 1⟩, 0⟩
    (by decide) rfl

/-- Witness of C10 on the handle of `openedWorld` and the file "GeoIP.dat" of the
plain country edition. -/
theorem failed_update_effect_witness :
    (update demoLib openedWorld 0 "GeoIP.dat" false).2 =
      Outcome.ThrowException "Error: Not valid country database" ∧
    ((update demoLib openedWorld 0 "GeoIP.dat" false).1.objs 0).db_edition = some 1 :=
  ⟨((failed_update_effect demoLib openedWorld 0 "GeoIP.dat" false).1 ⟨1, fun _ => 1⟩ rfl
      (by decide)).1,
   ((failed_update_effect demoLib openedWorld 0 "GeoIP.dat" false).1 ⟨1, fun _ => 1⟩ rfl
      (by decide)).2.1⟩

end geoip
